import Mathlib

/-!
Verification of the data-cleaning pipeline of `first_project`
(`src/py_files/functions.py`, orchestrated by `src/py_files/main.py`).

The two pandas DataFrame pipelines are shallowly embedded:

* rows become Lean structures whose fields stand for the columns (after the
  final lower-casing / renaming, field names use the cleaned spelling; the
  hyphenated column `degree_of_work-life_balance` is spelled
  `degree_of_work_life_balance` since Lean identifiers cannot carry a hyphen);
* float columns become `ℚ`; a NaN/Inf cell (e.g. produced by dividing by a
  zero maximum, or by `unstack` on an absent group/value combination, or by
  `pd.Categorical` on a value outside the category list) becomes `none` of an
  `Option` type;
* a pandas `KeyError` / `ValueError` becomes an `Except` error value;
* column presence, which `drop(errors = ignore)` versus plain column access
  treat differently, is tracked by explicit presence flags (productivity
  table) or by an explicit list of column names (mental-health table).
-/

namespace FirstProject

/-- Structural errors of the pandas operations used by the program:
a missing required column (`KeyError` on column access or `drop`),
or a column-relabelling length mismatch (`ValueError`). -/
inductive PdError
  | missingField (name : String)
  | missingKey (name : String)
  | lengthMismatch (expected got : Nat)
  deriving DecidableEq

/-- The three work-type labels introduced by `cleaning_productivity_data`
(the ordered categorical over exactly [Remote, Hybrid, Onsite]). -/
inductive WorkType
  | Remote
  | Hybrid
  | Onsite
  deriving DecidableEq

/-- A cell of the `Remote_Work_Frequency` column after the `.replace` step:
either one of the three labels, or an untouched numeric value. -/
inductive WTVal
  | wlabel (w : WorkType)
  | num (q : ℚ)
  deriving DecidableEq

/-- One row of the raw productivity table
(`Extended_Employee_Performance_and_Productivity_Data.csv`). -/
structure ProdRow where
  employee_id : String := ""
  hire_date : String := ""
  team_size : ℚ := 0
  department : String := ""
  remote_work_frequency : ℚ := 0
  promotions : ℚ := 0
  training_hours : ℚ := 0
  employee_satisfaction_score : ℚ := 3
  performance_score : ℚ := 3
  work_hours_per_week : ℚ := 40
  overtime_hours : ℚ := 0
  deriving DecidableEq

/-- The raw productivity table: its rows and presence flags for the columns
the cleaning function touches (`drop(errors = ignore)` ignores an absent
column, every other column access raises a `KeyError`). -/
structure ProdTable where
  rows : List ProdRow
  hasEmployeeID : Bool := true
  hasHireDate : Bool := true
  hasTeamSize : Bool := true
  hasDepartment : Bool := true
  hasRemoteWorkFrequency : Bool := true
  hasPromotions : Bool := true
  hasTrainingHours : Bool := true
  hasSatisfaction : Bool := true
  hasPerformance : Bool := true
  deriving DecidableEq

/-- One row of the cleaned productivity table (column names already
lower-cased, `remote_work_frequency` renamed to `work_type`,
the two temporary normalized columns dropped). `work_type` is `none` when
`pd.Categorical` meets a value outside its category list. -/
structure CleanProdRow where
  department : String
  work_type : Option WorkType
  promotions : ℚ
  training_hours : ℚ
  employee_satisfaction_score : ℚ
  performance_score : ℚ
  work_hours_per_week : ℚ
  overtime_hours : ℚ
  motivation_score : Option ℚ
  deriving DecidableEq

/-- The `.replace` step on `Remote_Work_Frequency`
(100 to Remote, 50 to Hybrid, 0 to Onsite, anything else untouched). -/
def replaceFreq (q : ℚ) : WTVal :=
  if q = 100 then .wlabel .Remote
  else if q = 50 then .wlabel .Hybrid
  else if q = 0 then .wlabel .Onsite
  else .num q

/-- The `pd.Categorical` step: a value among the three categories stays,
anything else becomes NaN (`none`). -/
def toCategorical : WTVal → Option WorkType
  | .wlabel w => some w
  | .num _ => none

/-- pandas `Series.max`: NaN (`none`) on an empty series. -/
def seriesMax : List ℚ → Option ℚ
  | [] => none
  | x :: xs => some (xs.foldl max x)

/-- The rescaling `(value / max) * 4 + 1` of line 64 and 65 of
`functions.py`; a zero maximum divides by zero, producing an undefined
floating value (NaN or Inf), modelled as `none`. -/
def rescaleTo15 (v m : ℚ) : Option ℚ :=
  if m = 0 then none else some (v / m * 4 + 1)

/-- Rescaling against an `Option`-valued column maximum (NaN maximum, from an
empty filtered column, propagates). -/
def rescaleCol (m : Option ℚ) (v : ℚ) : Option ℚ :=
  match m with
  | none => none
  | some mv => rescaleTo15 v mv

/-- pandas `Series.round(2)` on a rational value. -/
def round2 (q : ℚ) : ℚ := ((round (100 * q) : ℤ) : ℚ) / 100

/-- The row filter of line 52 through 54: department is IT and the remote-work
frequency is neither 75 nor 25. -/
def prodKeep (r : ProdRow) : Bool :=
  r.department == "IT" && r.remote_work_frequency != 75 && r.remote_work_frequency != 25

/-- The rows surviving the filter step. -/
def filteredRows (t : ProdTable) : List ProdRow :=
  t.rows.filter prodKeep

/-- The `Motivation_Score` computation of line 64 through 76: the average of
the two scores and the two rescaled factors, rounded to two decimals; a NaN
in either rescaled factor propagates. -/
def motivationScore (mP mT : Option ℚ) (r : ProdRow) : Option ℚ :=
  match rescaleCol mP r.promotions, rescaleCol mT r.training_hours with
  | some pn, some tn =>
      some (round2 ((r.employee_satisfaction_score + r.performance_score + pn + tn) / 4))
  | _, _ => none

/-- One cleaned row, given the maxima of the filtered `Promotions` and
`Training_Hours` columns. -/
def cleanRow (mP mT : Option ℚ) (r : ProdRow) : CleanProdRow :=
  { department := r.department
    work_type := toCategorical (replaceFreq r.remote_work_frequency)
    promotions := r.promotions
    training_hours := r.training_hours
    employee_satisfaction_score := r.employee_satisfaction_score
    performance_score := r.performance_score
    work_hours_per_week := r.work_hours_per_week
    overtime_hours := r.overtime_hours
    motivation_score := motivationScore mP mT r }

/-- The whole row transformation of `cleaning_productivity_data` once every
required column is known to be present. -/
def cleanCore (t : ProdTable) : List CleanProdRow :=
  let fr := filteredRows t
  let mP := seriesMax (fr.map (·.promotions))
  let mT := seriesMax (fr.map (·.training_hours))
  fr.map (cleanRow mP mT)

/-- `cleaning_productivity_data` of `functions.py` (line 7 through 97).
The drop of `Employee_ID`, `Hire_Date` and `Team_Size` uses
`errors = ignore`, so their flags are never consulted; every other used
column raises a `KeyError` when absent, in the order the code first touches
it (Department and Remote_Work_Frequency in the filter of line 52,
Promotions line 64, Training_Hours line 65, the two scores line 69, 70). -/
def cleaning_productivity_data (t : ProdTable) : Except PdError (List CleanProdRow) :=
  if t.hasDepartment = false then .error (.missingField "Department")
  else if t.hasRemoteWorkFrequency = false then .error (.missingField "Remote_Work_Frequency")
  else if t.hasPromotions = false then .error (.missingField "Promotions")
  else if t.hasTrainingHours = false then .error (.missingField "Training_Hours")
  else if t.hasSatisfaction = false then .error (.missingField "Employee_Satisfaction_Score")
  else if t.hasPerformance = false then .error (.missingField "Performance_Score")
  else .ok (cleanCore t)

/-- All columns needed by the filter and the score computation are present. -/
def requiredPresent (t : ProdTable) : Bool :=
  t.hasDepartment && t.hasRemoteWorkFrequency && t.hasPromotions &&
    t.hasTrainingHours && t.hasSatisfaction && t.hasPerformance

theorem cleaning_ok_iff (t : ProdTable) (out : List CleanProdRow) :
    cleaning_productivity_data t = .ok out ↔
      (requiredPresent t = true ∧ out = cleanCore t) := by
  cases h1 : t.hasDepartment <;> cases h2 : t.hasRemoteWorkFrequency <;>
    cases h3 : t.hasPromotions <;> cases h4 : t.hasTrainingHours <;>
    cases h5 : t.hasSatisfaction <;> cases h6 : t.hasPerformance <;>
    simp [cleaning_productivity_data, requiredPresent, h1, h2, h3, h4, h5, h6, eq_comm]

theorem le_foldl_max (xs : List ℚ) (a : ℚ) : a ≤ xs.foldl max a := by
  induction xs generalizing a with
  | nil => exact le_refl a
  | cons x xs ih => exact le_trans (le_max_left a x) (ih (max a x))

theorem mem_le_foldl_max (xs : List ℚ) (a : ℚ) : ∀ x ∈ xs, x ≤ xs.foldl max a := by
  induction xs generalizing a with
  | nil => intro x hx; cases hx
  | cons y ys ih =>
    intro x hx
    rcases List.mem_cons.mp hx with h | h
    · subst h
      exact le_trans (le_max_right a x) (le_foldl_max ys (max a x))
    · exact ih (max a y) x h

theorem foldl_max_mem (xs : List ℚ) (a : ℚ) : xs.foldl max a = a ∨ xs.foldl max a ∈ xs := by
  induction xs generalizing a with
  | nil => left; rfl
  | cons y ys ih =>
    simp only [List.foldl_cons]
    rcases ih (max a y) with h | h
    · rcases max_choice a y with h2 | h2
      · left; rw [h, h2]
      · right; rw [h, h2]; exact List.mem_cons_self _ _
    · right; exact List.mem_cons_of_mem _ h

theorem seriesMax_spec (l : List ℚ) (m : ℚ) (h : seriesMax l = some m) :
    m ∈ l ∧ ∀ x ∈ l, x ≤ m := by
  cases l with
  | nil => simp [seriesMax] at h
  | cons x xs =>
    simp only [seriesMax, Option.some.injEq] at h
    subst h
    refine ⟨?_, ?_⟩
    · rcases foldl_max_mem xs x with h | h
      · rw [h]; exact List.mem_cons_self _ _
      · exact List.mem_cons_of_mem _ h
    · intro y hy
      rcases List.mem_cons.mp hy with h | h
      · subst h; exact le_foldl_max xs y
      · exact mem_le_foldl_max xs x y h

theorem round2_bounds {q : ℚ} (h1 : 1 ≤ q) (h5 : q ≤ 5) :
    1 ≤ round2 q ∧ round2 q ≤ 5 := by
  have hlo : (100 : ℤ) ≤ round (100 * q) := by
    rw [round_eq]
    exact Int.le_floor.mpr (by push_cast; linarith)
  have hhi : round (100 * q) ≤ 500 := by
    rw [round_eq]
    have h := Int.floor_lt.mpr (show 100 * q + 1 / 2 < ((501 : ℤ) : ℚ) by push_cast; linarith)
    omega
  have hlo' : ((100 : ℤ) : ℚ) ≤ ((round (100 * q) : ℤ) : ℚ) := by exact_mod_cast hlo
  have hhi' : ((round (100 * q) : ℤ) : ℚ) ≤ ((500 : ℤ) : ℚ) := by exact_mod_cast hhi
  constructor
  · rw [round2, le_div_iff₀ (by norm_num : (0 : ℚ) < 100)]
    push_cast at hlo' ⊢
    linarith
  · rw [round2, div_le_iff₀ (by norm_num : (0 : ℚ) < 100)]
    push_cast at hhi' ⊢
    linarith

theorem mem_cleanCore {t : ProdTable} {row : CleanProdRow} (h : row ∈ cleanCore t) :
    ∃ r ∈ filteredRows t,
      row = cleanRow (seriesMax ((filteredRows t).map (·.promotions)))
        (seriesMax ((filteredRows t).map (·.training_hours))) r := by
  simp only [cleanCore, List.mem_map] at h
  obtain ⟨r, hr, heq⟩ := h
  exact ⟨r, hr, heq.symm⟩

theorem prodKeep_iff (r : ProdRow) :
    prodKeep r = true ↔
      r.department = "IT" ∧ r.remote_work_frequency ≠ 75 ∧ r.remote_work_frequency ≠ 25 := by
  simp [prodKeep, Bool.and_eq_true, and_assoc]

/-- C1: on a raw productivity table whose remote-work frequencies lie in the
documented domain 0, 25, 50, 75, 100, every cleaned row is in department IT,
carries one of exactly the three work-type labels, and stems from a surviving
raw row whose frequency was mapped by 100 to Remote, 50 to Hybrid,
0 to Onsite; no raw frequency 25 or 75 survives. -/
theorem spec_C1 (t : ProdTable) (out : List CleanProdRow)
    (hok : cleaning_productivity_data t = .ok out)
    (hdom : ∀ r ∈ t.rows, r.remote_work_frequency = 0 ∨ r.remote_work_frequency = 25 ∨
      r.remote_work_frequency = 50 ∨ r.remote_work_frequency = 75 ∨
      r.remote_work_frequency = 100) :
    ∀ row ∈ out, row.department = "IT" ∧
      (row.work_type = some WorkType.Remote ∨ row.work_type = some WorkType.Hybrid ∨
        row.work_type = some WorkType.Onsite) ∧
      ∃ r ∈ t.rows, r.department = "IT" ∧
        r.remote_work_frequency ≠ 25 ∧ r.remote_work_frequency ≠ 75 ∧
        ((r.remote_work_frequency = 100 ∧ row.work_type = some WorkType.Remote) ∨
          (r.remote_work_frequency = 50 ∧ row.work_type = some WorkType.Hybrid) ∨
          (r.remote_work_frequency = 0 ∧ row.work_type = some WorkType.Onsite)) := by
  obtain ⟨-, hout⟩ := (cleaning_ok_iff t out).mp hok
  subst hout
  intro row hrow
  obtain ⟨r, hrfil, heq⟩ := mem_cleanCore hrow
  obtain ⟨hmem, hkeep⟩ := List.mem_filter.mp hrfil
  obtain ⟨hdept, h75, h25⟩ := (prodKeep_iff r).mp hkeep
  have hdeptrow : row.department = "IT" := by rw [heq]; exact hdept
  have hwt : row.work_type = toCategorical (replaceFreq r.remote_work_frequency) := by
    rw [heq]; rfl
  rcases hdom r hmem with h0 | h1 | h2 | h3 | h4
  · have hlab : row.work_type = some WorkType.Onsite := by
      rw [hwt, h0]; decide
    exact ⟨hdeptrow, Or.inr (Or.inr hlab), r, hmem, hdept, h25, h75,
      Or.inr (Or.inr ⟨h0, hlab⟩)⟩
  · exact absurd h1 h25
  · have hlab : row.work_type = some WorkType.Hybrid := by
      rw [hwt, h2]; decide
    exact ⟨hdeptrow, Or.inr (Or.inl hlab), r, hmem, hdept, h25, h75,
      Or.inr (Or.inl ⟨h2, hlab⟩)⟩
  · exact absurd h3 h75
  · have hlab : row.work_type = some WorkType.Remote := by
      rw [hwt, h4]; decide
    exact ⟨hdeptrow, Or.inl hlab, r, hmem, hdept, h25, h75, Or.inl ⟨h4, hlab⟩⟩

/-- A small concrete raw productivity table: an IT row with frequency 100,
an IT row with the excluded frequency 75, and an HR row. -/
def prodRowA : ProdRow :=
  { department := "IT", remote_work_frequency := 100, promotions := 2,
    training_hours := 40, employee_satisfaction_score := 4, performance_score := 5 }

def prodRowB : ProdRow :=
  { department := "IT", remote_work_frequency := 75, promotions := 1, training_hours := 10 }

def prodRowC : ProdRow :=
  { department := "HR", remote_work_frequency := 0 }

def prodT0 : ProdTable := { rows := [prodRowA, prodRowB, prodRowC] }

/-- The first cleaned row of the concrete table, with the column maxima left
in their computed form. -/
def prodW1Row : CleanProdRow :=
  cleanRow (seriesMax ((filteredRows prodT0).map (·.promotions)))
    (seriesMax ((filteredRows prodT0).map (·.training_hours))) prodRowA

theorem spec_C1_witness :
    prodW1Row.department = "IT" ∧
    (prodW1Row.work_type = some WorkType.Remote ∨
      prodW1Row.work_type = some WorkType.Hybrid ∨
      prodW1Row.work_type = some WorkType.Onsite) := by
  have hmem : prodW1Row ∈ cleanCore prodT0 := by
    apply List.mem_map.mpr
    refine ⟨prodRowA, List.mem_filter.mpr ⟨List.Mem.head _, by decide⟩, rfl⟩
  have h := spec_C1 prodT0 (cleanCore prodT0) rfl (by decide) prodW1Row hmem
  exact ⟨h.1, h.2.1⟩

/-- C2: with in-range scores, non-negative factors and strictly positive
filtered-column maxima, the rescaling sends the maximum to exactly 5 and
zero to exactly 1, rows attaining each maximum exist in the output, and
every cleaned row's motivation score is the two-decimal rounding of the
average of the four factors and lies between 1 and 5. -/
theorem spec_C2 (t : ProdTable) (out : List CleanProdRow) (mP mT : ℚ)
    (hok : cleaning_productivity_data t = .ok out)
    (hdom : ∀ r ∈ t.rows, 1 ≤ r.employee_satisfaction_score ∧
      r.employee_satisfaction_score ≤ 5 ∧ 1 ≤ r.performance_score ∧
      r.performance_score ≤ 5 ∧ 0 ≤ r.promotions ∧ 0 ≤ r.training_hours)
    (hmP : seriesMax ((filteredRows t).map (·.promotions)) = some mP)
    (hmPpos : 0 < mP)
    (hmT : seriesMax ((filteredRows t).map (·.training_hours)) = some mT)
    (hmTpos : 0 < mT) :
    rescaleTo15 mP mP = some 5 ∧ rescaleTo15 0 mP = some 1 ∧
    rescaleTo15 mT mT = some 5 ∧ rescaleTo15 0 mT = some 1 ∧
    (∃ row ∈ out, row.promotions = mP) ∧ (∃ row ∈ out, row.training_hours = mT) ∧
    ∀ row ∈ out,
      row.motivation_score = some (round2 ((row.employee_satisfaction_score +
        row.performance_score + (row.promotions / mP * 4 + 1) +
        (row.training_hours / mT * 4 + 1)) / 4)) ∧
      ∃ v, row.motivation_score = some v ∧ 1 ≤ v ∧ v ≤ 5 := by
  obtain ⟨-, hout⟩ := (cleaning_ok_iff t out).mp hok
  subst hout
  obtain ⟨hmPmem, hmPle⟩ := seriesMax_spec _ _ hmP
  obtain ⟨hmTmem, hmTle⟩ := seriesMax_spec _ _ hmT
  have hresP : rescaleTo15 mP mP = some 5 := by
    rw [rescaleTo15, if_neg hmPpos.ne', div_self hmPpos.ne']; norm_num
  have hresP0 : rescaleTo15 0 mP = some 1 := by
    rw [rescaleTo15, if_neg hmPpos.ne', zero_div]; norm_num
  have hresT : rescaleTo15 mT mT = some 5 := by
    rw [rescaleTo15, if_neg hmTpos.ne', div_self hmTpos.ne']; norm_num
  have hresT0 : rescaleTo15 0 mT = some 1 := by
    rw [rescaleTo15, if_neg hmTpos.ne', zero_div]; norm_num
  refine ⟨hresP, hresP0, hresT, hresT0, ?_, ?_, ?_⟩
  · obtain ⟨r, hr, hrp⟩ := List.mem_map.mp hmPmem
    refine ⟨cleanRow (seriesMax ((filteredRows t).map (·.promotions)))
      (seriesMax ((filteredRows t).map (·.training_hours))) r, ?_, hrp⟩
    simp only [cleanCore, List.mem_map]
    exact ⟨r, hr, rfl⟩
  · obtain ⟨r, hr, hrp⟩ := List.mem_map.mp hmTmem
    refine ⟨cleanRow (seriesMax ((filteredRows t).map (·.promotions)))
      (seriesMax ((filteredRows t).map (·.training_hours))) r, ?_, hrp⟩
    simp only [cleanCore, List.mem_map]
    exact ⟨r, hr, rfl⟩
  · intro row hrow
    obtain ⟨r, hrfil, heq⟩ := mem_cleanCore hrow
    have hmemraw : r ∈ t.rows := (List.mem_filter.mp hrfil).1
    obtain ⟨hs1, hs5, hp1, hp5, hpr0, htr0⟩ := hdom r hmemraw
    have hprle : r.promotions ≤ mP := hmPle _ (List.mem_map.mpr ⟨r, hrfil, rfl⟩)
    have htrle : r.training_hours ≤ mT := hmTle _ (List.mem_map.mpr ⟨r, hrfil, rfl⟩)
    have hmot : row.motivation_score = some (round2 ((r.employee_satisfaction_score +
        r.performance_score + (r.promotions / mP * 4 + 1) +
        (r.training_hours / mT * 4 + 1)) / 4)) := by
      rw [heq]
      show motivationScore _ _ r = _
      rw [hmP, hmT, motivationScore]
      simp only [rescaleCol, rescaleTo15, if_neg hmPpos.ne', if_neg hmTpos.ne']
    have hfields : row.employee_satisfaction_score = r.employee_satisfaction_score ∧
        row.performance_score = r.performance_score ∧
        row.promotions = r.promotions ∧ row.training_hours = r.training_hours := by
      rw [heq]; exact ⟨rfl, rfl, rfl, rfl⟩
    obtain ⟨hf1, hf2, hf3, hf4⟩ := hfields
    have hpn1 : 1 ≤ r.promotions / mP * 4 + 1 := by
      have := div_nonneg hpr0 hmPpos.le
      linarith
    have hpn5 : r.promotions / mP * 4 + 1 ≤ 5 := by
      have := (div_le_one hmPpos).mpr hprle
      linarith
    have htn1 : 1 ≤ r.training_hours / mT * 4 + 1 := by
      have := div_nonneg htr0 hmTpos.le
      linarith
    have htn5 : r.training_hours / mT * 4 + 1 ≤ 5 := by
      have := (div_le_one hmTpos).mpr htrle
      linarith
    have havg1 : 1 ≤ (r.employee_satisfaction_score + r.performance_score +
        (r.promotions / mP * 4 + 1) + (r.training_hours / mT * 4 + 1)) / 4 := by
      linarith
    have havg5 : (r.employee_satisfaction_score + r.performance_score +
        (r.promotions / mP * 4 + 1) + (r.training_hours / mT * 4 + 1)) / 4 ≤ 5 := by
      linarith
    obtain ⟨hv1, hv5⟩ := round2_bounds havg1 havg5
    refine ⟨?_, ?_⟩
    · rw [hmot, hf1, hf2, hf3, hf4]
    · exact ⟨_, hmot, hv1, hv5⟩

theorem spec_C2_witness :
    rescaleTo15 2 2 = some 5 ∧ rescaleTo15 0 2 = some 1 := by
  have h := spec_C2 prodT0 (cleanCore prodT0) 2 40 rfl (by decide) (by decide)
    (by norm_num) (by decide) (by norm_num)
  exact ⟨h.1, h.2.1⟩

/-- C8: a zero maximum in the filtered Promotions column (or the filtered
Training_Hours column) raises no error: the cleaning completes and every
cleaned row's motivation score is the undefined NaN/Inf value. -/
theorem spec_C8 (t : ProdTable) (hreq : requiredPresent t = true)
    (hmax : seriesMax ((filteredRows t).map (·.promotions)) = some 0 ∨
      seriesMax ((filteredRows t).map (·.training_hours)) = some 0) :
    cleaning_productivity_data t = .ok (cleanCore t) ∧
      ∀ row ∈ cleanCore t, row.motivation_score = none := by
  refine ⟨(cleaning_ok_iff t _).mpr ⟨hreq, rfl⟩, ?_⟩
  intro row hrow
  obtain ⟨r, hrfil, heq⟩ := mem_cleanCore hrow
  rcases hmax with h | h
  · rw [heq]
    show motivationScore _ _ r = none
    rw [h, motivationScore]
    simp [rescaleCol, rescaleTo15]
  · rw [heq]
    show motivationScore _ _ r = none
    rw [h, motivationScore]
    rcases hc : rescaleCol (seriesMax ((filteredRows t).map (·.promotions))) r.promotions with
      _ | pn <;> simp [hc, rescaleCol, rescaleTo15]

def prodRow8 : ProdRow :=
  { department := "IT", remote_work_frequency := 100, promotions := 0, training_hours := 10 }

def prodT8 : ProdTable := { rows := [prodRow8] }

theorem spec_C8_witness :
    cleaning_productivity_data prodT8 = .ok (cleanCore prodT8) ∧
      (cleanRow (some 0) (some 10) prodRow8).motivation_score = none := by
  have h := spec_C8 prodT8 (by decide) (Or.inl (by decide))
  exact ⟨h.1, h.2 _ (by decide)⟩

/-- C9: the drop step silently tolerates the absence of Employee_ID,
Hire_Date and Team_Size (cleaning succeeds whatever their presence flags),
while a missing filter or score column raises a missing-field error naming
the column, in the order the code touches the columns. -/
theorem spec_C9 (t : ProdTable) :
    (requiredPresent t = true →
      ∀ b1 b2 b3 : Bool,
        cleaning_productivity_data
          { t with hasEmployeeID := b1, hasHireDate := b2, hasTeamSize := b3 } =
          .ok (cleanCore t)) ∧
    (t.hasDepartment = false →
      cleaning_productivity_data t = .error (.missingField "Department")) ∧
    (t.hasDepartment = true → t.hasRemoteWorkFrequency = false →
      cleaning_productivity_data t = .error (.missingField "Remote_Work_Frequency")) ∧
    (t.hasDepartment = true → t.hasRemoteWorkFrequency = true → t.hasPromotions = false →
      cleaning_productivity_data t = .error (.missingField "Promotions")) ∧
    (t.hasDepartment = true → t.hasRemoteWorkFrequency = true → t.hasPromotions = true →
      t.hasTrainingHours = false →
      cleaning_productivity_data t = .error (.missingField "Training_Hours")) ∧
    (t.hasDepartment = true → t.hasRemoteWorkFrequency = true → t.hasPromotions = true →
      t.hasTrainingHours = true → t.hasSatisfaction = false →
      cleaning_productivity_data t = .error (.missingField "Employee_Satisfaction_Score")) ∧
    (t.hasDepartment = true → t.hasRemoteWorkFrequency = true → t.hasPromotions = true →
      t.hasTrainingHours = true → t.hasSatisfaction = true → t.hasPerformance = false →
      cleaning_productivity_data t = .error (.missingField "Performance_Score")) := by
  refine ⟨?_, ?_, ?_, ?_, ?_, ?_, ?_⟩
  · intro h b1 b2 b3
    exact (cleaning_ok_iff _ _).mpr ⟨h, rfl⟩
  · intro h1
    simp [cleaning_productivity_data, h1]
  · intro h1 h2
    simp [cleaning_productivity_data, h1, h2]
  · intro h1 h2 h3
    simp [cleaning_productivity_data, h1, h2, h3]
  · intro h1 h2 h3 h4
    simp [cleaning_productivity_data, h1, h2, h3, h4]
  · intro h1 h2 h3 h4 h5
    simp [cleaning_productivity_data, h1, h2, h3, h4, h5]
  · intro h1 h2 h3 h4 h5 h6
    simp [cleaning_productivity_data, h1, h2, h3, h4, h5, h6]

theorem spec_C9_witness :
    cleaning_productivity_data
      { prodT0 with hasEmployeeID := false, hasHireDate := false, hasTeamSize := false } =
      .ok (cleanCore prodT0) ∧
    cleaning_productivity_data { prodT0 with hasPromotions := false } =
      .error (.missingField "Promotions") := by
  refine ⟨(spec_C9 prodT0).1 (by decide) false false false, ?_⟩
  exact (spec_C9 { prodT0 with hasPromotions := false }).2.2.2.1 (by decide) (by decide) (by decide)

/-- The three-level degree buckets of the mental-health cleaner. -/
inductive Degree
  | Low
  | Medium
  | High
  deriving DecidableEq

/-- Inner function `support_remote_grade` of `df_mentalhealth_cleaning`
(line 407 through 413 of `functions.py`). -/
def support_remote_grade (grade : ℚ) : Degree :=
  if grade ≤ 2 then .Low
  else if grade = 3 then .Medium
  else .High

/-- Inner function `social_isolation` (line 418 through 424). -/
def social_isolation (rating : ℚ) : Degree :=
  if rating ≤ 2 then .Low
  else if rating = 3 then .Medium
  else .High

/-- Inner function `degree_work_life_balance` (line 429 through 435). -/
def degree_work_life_balance (grade : ℚ) : Degree :=
  if grade ≤ 2 then .Low
  else if grade = 3 then .Medium
  else .High

/-- C4: on the in-domain integer ratings 1 through 5, each of the three
bucketing functions follows the documented thresholds (at most 2 to Low,
exactly 3 to Medium, at least 4 to High), and evaluates as documented at
each of the five literal ratings. -/
theorem spec_C4 (n : ℤ) (h1 : 1 ≤ n) (h5 : n ≤ 5) :
    ((n ≤ 2 → support_remote_grade (n : ℚ) = Degree.Low ∧
        social_isolation (n : ℚ) = Degree.Low ∧
        degree_work_life_balance (n : ℚ) = Degree.Low) ∧
      (n = 3 → support_remote_grade (n : ℚ) = Degree.Medium ∧
        social_isolation (n : ℚ) = Degree.Medium ∧
        degree_work_life_balance (n : ℚ) = Degree.Medium) ∧
      (4 ≤ n → support_remote_grade (n : ℚ) = Degree.High ∧
        social_isolation (n : ℚ) = Degree.High ∧
        degree_work_life_balance (n : ℚ) = Degree.High)) ∧
    (support_remote_grade 1 = Degree.Low ∧ support_remote_grade 2 = Degree.Low ∧
      support_remote_grade 3 = Degree.Medium ∧ support_remote_grade 4 = Degree.High ∧
      support_remote_grade 5 = Degree.High) ∧
    (social_isolation 1 = Degree.Low ∧ social_isolation 2 = Degree.Low ∧
      social_isolation 3 = Degree.Medium ∧ social_isolation 4 = Degree.High ∧
      social_isolation 5 = Degree.High) ∧
    (degree_work_life_balance 1 = Degree.Low ∧ degree_work_life_balance 2 = Degree.Low ∧
      degree_work_life_balance 3 = Degree.Medium ∧ degree_work_life_balance 4 = Degree.High ∧
      degree_work_life_balance 5 = Degree.High) := by
  refine ⟨⟨?_, ?_, ?_⟩, by decide, by decide, by decide⟩
  · intro h
    have hq : (n : ℚ) ≤ 2 := by exact_mod_cast h
    simp [support_remote_grade, social_isolation, degree_work_life_balance, hq]
  · intro h
    subst h
    have h33 : ((3 : ℤ) : ℚ) = 3 := by norm_num
    rw [h33]
    norm_num [support_remote_grade, social_isolation, degree_work_life_balance]
  · intro h
    have hq : (4 : ℚ) ≤ (n : ℚ) := by exact_mod_cast h
    have hle : ¬ (n : ℚ) ≤ 2 := by linarith
    have hne : (n : ℚ) ≠ 3 := by intro he; rw [he] at hq; linarith
    simp [support_remote_grade, social_isolation, degree_work_life_balance, hle, hne]

theorem spec_C4_witness :
    support_remote_grade ((3 : ℤ) : ℚ) = Degree.Medium ∧
    social_isolation ((3 : ℤ) : ℚ) = Degree.Medium ∧
    degree_work_life_balance ((3 : ℤ) : ℚ) = Degree.Medium :=
  (spec_C4 3 (by norm_num) (by norm_num)).1.2.1 rfl

/-- C5 counterexample: the out-of-domain rating 0, although below 1, is
caught by the first branch (at most 2) of each bucketing function and yields
Low, not the catch-all High claimed for out-of-domain values below 1. -/
theorem spec_C5_counterexample :
    (0 : ℚ) < 1 ∧
    support_remote_grade 0 = Degree.Low ∧ social_isolation 0 = Degree.Low ∧
    degree_work_life_balance 0 = Degree.Low ∧
    support_remote_grade 0 ≠ Degree.High ∧ social_isolation 0 ≠ Degree.High ∧
    degree_work_life_balance 0 ≠ Degree.High := by
  decide

/-- C5 amended: the three bucketing functions are identical total functions
on the number line; every rating at most 2 (including out-of-domain values
below 1, which are not rejected) yields Low, exactly 3 yields Medium, and
anything else (including out-of-domain values above 5, which are not
rejected) yields High. -/
theorem spec_C5 (q : ℚ) :
    (social_isolation q = support_remote_grade q ∧
      degree_work_life_balance q = support_remote_grade q) ∧
    (q ≤ 2 → support_remote_grade q = Degree.Low ∧ social_isolation q = Degree.Low ∧
      degree_work_life_balance q = Degree.Low) ∧
    (q = 3 → support_remote_grade q = Degree.Medium ∧ social_isolation q = Degree.Medium ∧
      degree_work_life_balance q = Degree.Medium) ∧
    (2 < q → q ≠ 3 → support_remote_grade q = Degree.High ∧
      social_isolation q = Degree.High ∧ degree_work_life_balance q = Degree.High) := by
  refine ⟨⟨rfl, rfl⟩, ?_, ?_, ?_⟩
  · intro h
    simp [support_remote_grade, social_isolation, degree_work_life_balance, h]
  · intro h
    subst h
    norm_num [support_remote_grade, social_isolation, degree_work_life_balance]
  · intro h1 h2
    simp [support_remote_grade, social_isolation, degree_work_life_balance,
      not_le.mpr h1, h2]

theorem spec_C5_witness :
    support_remote_grade 7 = Degree.High ∧ social_isolation 7 = Degree.High ∧
    degree_work_life_balance 7 = Degree.High :=
  (spec_C5 7).2.2.2 (by norm_num) (by norm_num)

/-- One row of the mental-health table
(`Impact_of_Remote_Work_on_Mental_Health.csv`). Field names use the
lower-cased spelling; which columns a frame actually has is tracked by the
frame's column-name list, so a row may physically carry a field whose
column is absent. `job_role` is an `Option` so that a missing (NaN) role can
be represented. The three degree fields hold the bucket columns once added
(the hyphenated column `degree_of_work-life_balance` is stored in the field
`degree_of_work_life_balance`). -/
structure MHRow where
  employee_id : String := ""
  industry : String := ""
  job_role : Option String := none
  work_location : String := ""
  company_support_for_remote_work : ℚ := 3
  social_isolation_rating : ℚ := 3
  work_life_balance_rating : ℚ := 3
  stress_level : String := ""
  hours_worked_per_week : ℚ := 40
  number_of_virtual_meetings : ℚ := 5
  satisfaction_with_remote_work : String := ""
  mental_health_condition : String := ""
  access_to_mental_health_resources : String := ""
  physical_activity : String := ""
  sleep_quality : String := ""
  region : String := ""
  degree_of_remote_support : Option Degree := none
  degree_of_social_isolation : Option Degree := none
  degree_of_work_life_balance : Option Degree := none
  deriving DecidableEq

/-- A mental-health DataFrame: the authoritative list of column names,
plus the rows. -/
structure MHFrame where
  colNames : List String
  rows : List MHRow
  deriving DecidableEq

/-- Modelled from the spec: the raw CSV schema of the mental-health input
file, which is not part of src/ (section 3 of the spec enumerates employee
id, industry, job role, work location, the three 1-to-5 ratings, stress
level, hours worked per week, number of virtual meetings, satisfaction with
remote work, and the five columns excluded from the cleaned output). -/
def rawMHColNames : List String :=
  ["Employee_ID", "Industry", "Job_Role", "Work_Location",
    "Company_Support_for_Remote_Work", "Social_Isolation_Rating",
    "Work_Life_Balance_Rating", "Stress_Level", "Hours_Worked_Per_Week",
    "Number_of_Virtual_Meetings", "Satisfaction_with_Remote_Work",
    "Mental_Health_Condition", "Access_to_Mental_Health_Resources",
    "Physical_Activity", "Sleep_Quality", "Region"]

/-- Character-wise lower-casing of a column name, the effect of pandas
`str.lower()` on an ASCII label. -/
def lowerString (s : String) : String :=
  String.mk (s.data.map Char.toLower)

/-- Line 403: `df2.columns = df2.columns.str.lower()` (mutates the caller's
frame). -/
def lowerCols (f : MHFrame) : MHFrame :=
  { colNames := f.colNames.map lowerString, rows := f.rows }

/-- Column presence in a frame. -/
def hasCol (f : MHFrame) (n : String) : Bool :=
  f.colNames.contains n

/-- Column-name effect of an assignment `df[n] = ...`: a new column is
appended at the end, an existing one is overwritten in place. -/
def addColName (ns : List String) (n : String) : List String :=
  if n ∈ ns then ns else ns ++ [n]

/-- Row effect of line 415: the remote-support bucket is written. -/
def setSupportDegree (r : MHRow) : MHRow :=
  { r with
    degree_of_remote_support := some (support_remote_grade r.company_support_for_remote_work) }

/-- Row effect of line 426: the social-isolation bucket is written. -/
def setIsolationDegree (r : MHRow) : MHRow :=
  { r with
    degree_of_social_isolation := some (social_isolation r.social_isolation_rating) }

/-- Row effect of line 437: the work-life-balance bucket is written. -/
def setBalanceDegree (r : MHRow) : MHRow :=
  { r with
    degree_of_work_life_balance := some (degree_work_life_balance r.work_life_balance_rating) }

/-- Line 415: the `degree_of_remote_support` column assignment (mutates the
caller's frame). -/
def addSupportCol (f : MHFrame) : MHFrame :=
  { colNames := addColName f.colNames "degree_of_remote_support",
    rows := f.rows.map setSupportDegree }

/-- Line 426: the `degree_of_social_isolation` column assignment. -/
def addIsolationCol (f : MHFrame) : MHFrame :=
  { colNames := addColName f.colNames "degree_of_social_isolation",
    rows := f.rows.map setIsolationDegree }

/-- Line 437: the `degree_of_work-life_balance` column assignment. -/
def addBalanceCol (f : MHFrame) : MHFrame :=
  { colNames := addColName f.colNames "degree_of_work-life_balance",
    rows := f.rows.map setBalanceDegree }

/-- The caller's frame after all the in-place mutations of
`df_mentalhealth_cleaning` (lower-casing and the three bucket columns);
the later drop, rename and filter rebind only the local name. -/
def mhMutated (f : MHFrame) : MHFrame :=
  addBalanceCol (addIsolationCol (addSupportCol (lowerCols f)))

/-- The columns dropped on line 440. -/
def mhDroppedCols : List String :=
  ["employee_id", "industry", "mental_health_condition",
    "access_to_mental_health_resources", "physical_activity", "sleep_quality",
    "region"]

/-- Line 440: `df2.drop(columns = ...)` returns a new frame (no
`errors = ignore` here, so a missing label raises, checked by the caller
below). -/
def dropExcludedCols (f : MHFrame) : MHFrame :=
  { colNames := f.colNames.filter (fun n => !(mhDroppedCols.contains n)),
    rows := f.rows }

/-- Line 444: the `work_location` to `work_type` rename (`inplace = True`,
but applied to the local frame rebound by the drop). -/
def renameWorkLocation (f : MHFrame) : MHFrame :=
  { f with
    colNames := f.colNames.map (fun n => if n = "work_location" then "work_type" else n) }

/-- The fixed allow-list of line 448. -/
def techRoles : List String :=
  ["Data Scientist", "Software Engineer", "Project Manager"]

/-- The `isin` predicate of line 448: a missing (NaN) role is not in the
list and is dropped, not errored. -/
def isTechRole (r : MHRow) : Bool :=
  match r.job_role with
  | some s => decide (s ∈ techRoles)
  | none => false

/-- Line 448: the job-role filter. -/
def filterTechRoles (f : MHFrame) : MHFrame :=
  { f with rows := f.rows.filter isTechRole }

/-- `df_mentalhealth_cleaning` of `functions.py` (line 394 through 450).
The result is the pair of the caller's frame as the call leaves it (the
lower-casing of line 403 and the three bucket-column assignments mutate the
argument in place) and the returned cleaned frame, or the `KeyError` of the
first column access or drop that fails. -/
def df_mentalhealth_cleaning (df2 : MHFrame) : MHFrame × Except PdError MHFrame :=
  if hasCol (lowerCols df2) "company_support_for_remote_work" = false then
    (lowerCols df2, .error (.missingKey "company_support_for_remote_work"))
  else if hasCol (addSupportCol (lowerCols df2)) "social_isolation_rating" = false then
    (addSupportCol (lowerCols df2), .error (.missingKey "social_isolation_rating"))
  else if hasCol (addIsolationCol (addSupportCol (lowerCols df2)))
      "work_life_balance_rating" = false then
    (addIsolationCol (addSupportCol (lowerCols df2)),
      .error (.missingKey "work_life_balance_rating"))
  else
    match mhDroppedCols.find? (fun n => !(hasCol (mhMutated df2) n)) with
    | some n => (mhMutated df2, .error (.missingKey n))
    | none =>
      if hasCol (renameWorkLocation (dropExcludedCols (mhMutated df2))) "job_role" = false then
        (mhMutated df2, .error (.missingKey "job_role"))
      else
        (mhMutated df2,
          .ok (filterTechRoles (renameWorkLocation (dropExcludedCols (mhMutated df2)))))

theorem mh_ok_elim {df2 out : MHFrame}
    (h : (df_mentalhealth_cleaning df2).2 = .ok out) :
    out = filterTechRoles (renameWorkLocation (dropExcludedCols (mhMutated df2))) := by
  unfold df_mentalhealth_cleaning at h
  split at h
  · simp at h
  · split at h
    · simp at h
    · split at h
      · simp at h
      · split at h
        · simp at h
        · split at h
          · simp at h
          · simp at h
            exact h.symm

theorem degree_cases (d : Degree) :
    d = Degree.Low ∨ d = Degree.Medium ∨ d = Degree.High := by
  cases d <;> simp

/-- C3: every row of the cleaned mental-health frame has a job role equal to
one of exactly Data Scientist, Software Engineer, Project Manager (other and
missing roles are dropped by the filter, never raising), and carries all
three bucket columns with a value among Low, Medium and High. -/
theorem spec_C3 (df2 out : MHFrame)
    (hok : (df_mentalhealth_cleaning df2).2 = .ok out) :
    ∀ row ∈ out.rows,
      (∃ s, row.job_role = some s ∧
        (s = "Data Scientist" ∨ s = "Software Engineer" ∨ s = "Project Manager")) ∧
      (∃ d, row.degree_of_remote_support = some d ∧
        (d = Degree.Low ∨ d = Degree.Medium ∨ d = Degree.High)) ∧
      (∃ d, row.degree_of_social_isolation = some d ∧
        (d = Degree.Low ∨ d = Degree.Medium ∨ d = Degree.High)) ∧
      (∃ d, row.degree_of_work_life_balance = some d ∧
        (d = Degree.Low ∨ d = Degree.Medium ∨ d = Degree.High)) := by
  rw [mh_ok_elim hok]
  intro row hrow
  have hrow' : row ∈ ((mhMutated df2).rows).filter isTechRole := hrow
  obtain ⟨hmem, hrole⟩ := List.mem_filter.mp hrow'
  constructor
  · cases hjr : row.job_role with
    | none => rw [isTechRole, hjr] at hrole; cases hrole
    | some s =>
      rw [isTechRole, hjr] at hrole
      simp only [techRoles, decide_eq_true_eq, List.mem_cons,
        List.not_mem_nil, or_false] at hrole
      exact ⟨s, rfl, hrole⟩
  · have hmaps : row ∈
        (((lowerCols df2).rows.map setSupportDegree).map setIsolationDegree).map
          setBalanceDegree := hmem
    obtain ⟨r3, hr3, heq3⟩ := List.mem_map.mp hmaps
    obtain ⟨r2, hr2, heq2⟩ := List.mem_map.mp hr3
    obtain ⟨r1, hr1, heq1⟩ := List.mem_map.mp hr2
    refine ⟨⟨support_remote_grade row.company_support_for_remote_work, ?_, degree_cases _⟩,
      ⟨social_isolation row.social_isolation_rating, ?_, degree_cases _⟩,
      ⟨degree_work_life_balance row.work_life_balance_rating, ?_, degree_cases _⟩⟩
    · rw [← heq3, ← heq2, ← heq1]; rfl
    · rw [← heq3, ← heq2]; rfl
    · rw [← heq3]; rfl

/-- A concrete raw mental-health row with a tech role. -/
def mhRowDS : MHRow :=
  { employee_id := "E1", industry := "Tech", job_role := some "Data Scientist",
    work_location := "Remote", company_support_for_remote_work := 4,
    social_isolation_rating := 2, work_life_balance_rating := 3,
    stress_level := "Low", mental_health_condition := "None", region := "EU" }

/-- A concrete raw mental-health frame over the raw CSV schema. -/
def mhT0 : MHFrame := { colNames := rawMHColNames, rows := [mhRowDS] }

/-- The bucket-annotated version of the concrete row. -/
def mhRow0 : MHRow := setBalanceDegree (setIsolationDegree (setSupportDegree mhRowDS))

theorem spec_C3_witness :
    (∃ s, mhRow0.job_role = some s ∧
      (s = "Data Scientist" ∨ s = "Software Engineer" ∨ s = "Project Manager")) ∧
    (∃ d, mhRow0.degree_of_remote_support = some d ∧
      (d = Degree.Low ∨ d = Degree.Medium ∨ d = Degree.High)) ∧
    (∃ d, mhRow0.degree_of_social_isolation = some d ∧
      (d = Degree.Low ∨ d = Degree.Medium ∨ d = Degree.High)) ∧
    (∃ d, mhRow0.degree_of_work_life_balance = some d ∧
      (d = Degree.Low ∨ d = Degree.Medium ∨ d = Degree.High)) :=
  spec_C3 mhT0 (filterTechRoles (renameWorkLocation (dropExcludedCols (mhMutated mhT0))))
    rfl mhRow0 (by decide)

/-- C10: on the raw schema, the cleaning call mutates its argument exactly by
lower-casing every column name and appending the three bucket columns, whose
values are written into every row while all other fields are untouched; the
column drop, the work-location rename and the job-role filter shape only the
returned frame, whose rows are drawn from the mutated caller rows. -/
theorem spec_C10 (df2 : MHFrame) (hcols : df2.colNames = rawMHColNames) :
    (df_mentalhealth_cleaning df2).1 = mhMutated df2 ∧
    (mhMutated df2).colNames =
      ["employee_id", "industry", "job_role", "work_location",
        "company_support_for_remote_work", "social_isolation_rating",
        "work_life_balance_rating", "stress_level", "hours_worked_per_week",
        "number_of_virtual_meetings", "satisfaction_with_remote_work",
        "mental_health_condition", "access_to_mental_health_resources",
        "physical_activity", "sleep_quality", "region",
        "degree_of_remote_support", "degree_of_social_isolation",
        "degree_of_work-life_balance"] ∧
    (mhMutated df2).rows =
      df2.rows.map (fun r => setBalanceDegree (setIsolationDegree (setSupportDegree r))) ∧
    (∀ r : MHRow,
      (setBalanceDegree (setIsolationDegree (setSupportDegree r))).employee_id =
        r.employee_id ∧
      (setBalanceDegree (setIsolationDegree (setSupportDegree r))).industry = r.industry ∧
      (setBalanceDegree (setIsolationDegree (setSupportDegree r))).job_role = r.job_role ∧
      (setBalanceDegree (setIsolationDegree (setSupportDegree r))).work_location =
        r.work_location ∧
      (setBalanceDegree (setIsolationDegree (setSupportDegree r))).company_support_for_remote_work =
        r.company_support_for_remote_work ∧
      (setBalanceDegree (setIsolationDegree (setSupportDegree r))).social_isolation_rating =
        r.social_isolation_rating ∧
      (setBalanceDegree (setIsolationDegree (setSupportDegree r))).work_life_balance_rating =
        r.work_life_balance_rating ∧
      (setBalanceDegree (setIsolationDegree (setSupportDegree r))).stress_level =
        r.stress_level ∧
      (setBalanceDegree (setIsolationDegree (setSupportDegree r))).mental_health_condition =
        r.mental_health_condition ∧
      (setBalanceDegree (setIsolationDegree (setSupportDegree r))).region = r.region ∧
      (setBalanceDegree (setIsolationDegree (setSupportDegree r))).degree_of_remote_support =
        some (support_remote_grade r.company_support_for_remote_work) ∧
      (setBalanceDegree (setIsolationDegree (setSupportDegree r))).degree_of_social_isolation =
        some (social_isolation r.social_isolation_rating) ∧
      (setBalanceDegree (setIsolationDegree (setSupportDegree r))).degree_of_work_life_balance =
        some (degree_work_life_balance r.work_life_balance_rating)) ∧
    (df_mentalhealth_cleaning df2).2 =
      .ok (filterTechRoles (renameWorkLocation (dropExcludedCols (mhMutated df2)))) ∧
    (filterTechRoles (renameWorkLocation (dropExcludedCols (mhMutated df2)))).colNames =
      ["job_role", "work_type", "company_support_for_remote_work",
        "social_isolation_rating", "work_life_balance_rating", "stress_level",
        "hours_worked_per_week", "number_of_virtual_meetings",
        "satisfaction_with_remote_work", "degree_of_remote_support",
        "degree_of_social_isolation", "degree_of_work-life_balance"] ∧
    ∀ row ∈ (filterTechRoles (renameWorkLocation (dropExcludedCols (mhMutated df2)))).rows,
      row ∈ (mhMutated df2).rows ∧ isTechRole row = true := by
  cases df2 with
  | mk cols rows =>
    dsimp only at hcols
    subst hcols
    refine ⟨rfl, rfl, ?_, fun r => ⟨rfl, rfl, rfl, rfl, rfl, rfl, rfl, rfl, rfl, rfl,
      rfl, rfl, rfl⟩, rfl, rfl, ?_⟩
    · simp [mhMutated, addBalanceCol, addIsolationCol, addSupportCol, lowerCols,
        List.map_map]
    · intro row hrow
      exact ⟨(List.mem_filter.mp hrow).1, (List.mem_filter.mp hrow).2⟩

theorem spec_C10_witness :
    (df_mentalhealth_cleaning mhT0).1 = mhMutated mhT0 ∧
    (mhMutated mhT0).colNames =
      ["employee_id", "industry", "job_role", "work_location",
        "company_support_for_remote_work", "social_isolation_rating",
        "work_life_balance_rating", "stress_level", "hours_worked_per_week",
        "number_of_virtual_meetings", "satisfaction_with_remote_work",
        "mental_health_condition", "access_to_mental_health_resources",
        "physical_activity", "sleep_quality", "region",
        "degree_of_remote_support", "degree_of_social_isolation",
        "degree_of_work-life_balance"] :=
  ⟨(spec_C10 mhT0 rfl).1, (spec_C10 mhT0 rfl).2.1⟩

/-- Lexicographic comparison of character lists by code point. -/
def charListLE : List Char → List Char → Bool
  | [], _ => true
  | _ :: _, [] => false
  | a :: as, b :: bs =>
    if a.toNat < b.toNat then true
    else if b.toNat < a.toNat then false
    else charListLE as bs

/-- Alphabetical (code-point lexicographic) order on strings. -/
def strLe (s t : String) : Bool := charListLE s.data t.data

/-- Ascending insertion of a string into a sorted list. -/
def insertStr (s : String) : List String → List String
  | [] => [s]
  | x :: xs => if strLe s x then s :: x :: xs else x :: insertStr s xs

/-- Ascending insertion sort on strings, modelling the sorted order in which
`unstack` lays out the columns it creates. -/
def sortStrings : List String → List String
  | [] => []
  | x :: xs => insertStr x (sortStrings xs)

/-- The distinct work-type values of the table in `unstack` column order. -/
def sortedWorkTypes (rows : List MHRow) : List String :=
  sortStrings (rows.map (·.work_location)).dedup

/-- Rows of a given stress level (the `groupby` group size). -/
def countStress (rows : List MHRow) (s : String) : ℕ :=
  rows.countP (fun r => decide (r.stress_level = s))

/-- Rows of a given stress level and work type (one `value_counts` entry). -/
def countStressWT (rows : List MHRow) (s w : String) : ℕ :=
  rows.countP (fun r => decide (r.stress_level = s ∧ r.work_location = w))

/-- One unstacked percentage cell of
`value_counts(normalize=True) * 100`: NaN (`none`) when the stress level and
work type never co-occur. -/
def pctCell (rows : List MHRow) (s w : String) : Option ℚ :=
  if countStressWT rows s w = 0 then none
  else some (100 * (countStressWT rows s w : ℚ) / (countStress rows s : ℚ))

/-- One row of the table returned by `stress_worktype_rel`: the three
percentage columns as relabelled on line 539, and the Total column. -/
structure StressRow where
  stress_level : String
  remote : Option ℚ
  hybrid : Option ℚ
  onsite : Option ℚ
  total : ℚ
  deriving DecidableEq

/-- The cell of the i-th unstacked column (in sorted order) for a stress
level. -/
def cellAt (rows : List MHRow) (wts : List String) (s : String) (i : ℕ) : Option ℚ :=
  match wts.get? i with
  | some w => pctCell rows s w
  | none => none

/-- One output row of `stress_worktype_rel`: line 539 assigns the labels
Remote, Hybrid, Onsite positionally onto the sorted unstacked columns, the
Total of line 542 is the NaN-skipping sum of the unrounded cells, and line
543 rounds the three labelled columns (not Total) to two decimals. -/
def mkStressRow (rows : List MHRow) (wts : List String) (s : String) : StressRow :=
  { stress_level := s
    remote := (cellAt rows wts s 0).map round2
    hybrid := (cellAt rows wts s 1).map round2
    onsite := (cellAt rows wts s 2).map round2
    total := (wts.map (fun w => (pctCell rows s w).getD 0)).sum }

/-- `stress_worktype_rel` of `functions.py` (line 532 through 545).
Relabelling the unstacked columns (line 539) raises a length-mismatch
`ValueError` unless exactly three distinct work types occur; the
`loc[row_order]` of line 541 raises a `KeyError` unless all three stress
levels occur; otherwise the three rows are produced in the order Low,
Medium, High. -/
def stress_worktype_rel (df : MHFrame) : Except PdError (List StressRow) :=
  if (sortedWorkTypes df.rows).length = 3 then
    if "Low" ∈ df.rows.map (·.stress_level) ∧ "Medium" ∈ df.rows.map (·.stress_level) ∧
        "High" ∈ df.rows.map (·.stress_level) then
      .ok (["Low", "Medium", "High"].map (mkStressRow df.rows (sortedWorkTypes df.rows)))
    else .error (.missingKey "stress_level")
  else .error (.lengthMismatch 3 (sortedWorkTypes df.rows).length)

theorem mem_insertStr {x s : String} {l : List String} :
    x ∈ insertStr s l ↔ x = s ∨ x ∈ l := by
  induction l with
  | nil => simp [insertStr]
  | cons y ys ih =>
    rw [insertStr]
    split
    · simp
    · rw [List.mem_cons, List.mem_cons, ih]
      tauto

theorem mem_sortStrings {x : String} {l : List String} :
    x ∈ sortStrings l ↔ x ∈ l := by
  induction l with
  | nil => simp [sortStrings]
  | cons y ys ih =>
    rw [sortStrings, mem_insertStr, ih, List.mem_cons]

theorem nodup_insertStr {s : String} {l : List String} (hs : s ∉ l) (hl : l.Nodup) :
    (insertStr s l).Nodup := by
  induction l with
  | nil => simp [insertStr]
  | cons y ys ih =>
    rw [insertStr]
    split
    · exact List.nodup_cons.mpr ⟨hs, hl⟩
    · obtain ⟨hy, hys⟩ := List.nodup_cons.mp hl
      refine List.nodup_cons.mpr ⟨?_, ih (fun h => hs (List.mem_cons_of_mem _ h)) hys⟩
      intro hmem
      rcases mem_insertStr.mp hmem with h | h
      · exact hs (h ▸ List.mem_cons_self _ _)
      · exact hy h

theorem nodup_sortStrings {l : List String} (hl : l.Nodup) : (sortStrings l).Nodup := by
  induction l with
  | nil => simp [sortStrings]
  | cons y ys ih =>
    obtain ⟨hy, hys⟩ := List.nodup_cons.mp hl
    rw [sortStrings]
    exact nodup_insertStr (fun h => hy (mem_sortStrings.mp h)) (ih hys)

theorem mem_sortedWorkTypes {rows : List MHRow} {r : MHRow} (hr : r ∈ rows) :
    r.work_location ∈ sortedWorkTypes rows := by
  rw [sortedWorkTypes, mem_sortStrings, List.mem_dedup]
  exact List.mem_map.mpr ⟨r, hr, rfl⟩

theorem nodup_sortedWorkTypes (rows : List MHRow) : (sortedWorkTypes rows).Nodup :=
  nodup_sortStrings (List.nodup_dedup _)

theorem countP_partition3 (s w0 w1 w2 : String) (h01 : w0 ≠ w1) (h02 : w0 ≠ w2)
    (h12 : w1 ≠ w2) (rows : List MHRow)
    (hcov : ∀ r ∈ rows, r.work_location = w0 ∨ r.work_location = w1 ∨
      r.work_location = w2) :
    countStressWT rows s w0 + countStressWT rows s w1 + countStressWT rows s w2 =
      countStress rows s := by
  induction rows with
  | nil => rfl
  | cons r rows ih =>
    have ih' := ih (fun x hx => hcov x (List.mem_cons_of_mem _ hx))
    simp only [countStress, countStressWT, List.countP_cons] at ih' ⊢
    by_cases hs : r.stress_level = s
    · rcases hcov r (List.mem_cons_self _ _) with hw | hw | hw
      · have d0 : decide (r.stress_level = s ∧ r.work_location = w0) = true := by
          simp [hs, hw]
        have d1 : decide (r.stress_level = s ∧ r.work_location = w1) = false := by
          simp [hw, h01]
        have d2 : decide (r.stress_level = s ∧ r.work_location = w2) = false := by
          simp [hw, h02]
        have dq : decide (r.stress_level = s) = true := by simp [hs]
        rw [d0, d1, d2, dq]
        simp only [if_true, Bool.false_eq_true, ite_true, ite_false]
        omega
      · have d0 : decide (r.stress_level = s ∧ r.work_location = w0) = false := by
          simp [hw, Ne.symm h01]
        have d1 : decide (r.stress_level = s ∧ r.work_location = w1) = true := by
          simp [hs, hw]
        have d2 : decide (r.stress_level = s ∧ r.work_location = w2) = false := by
          simp [hw, h12]
        have dq : decide (r.stress_level = s) = true := by simp [hs]
        rw [d0, d1, d2, dq]
        simp only [if_true, Bool.false_eq_true, ite_true, ite_false]
        omega
      · have d0 : decide (r.stress_level = s ∧ r.work_location = w0) = false := by
          simp [hw, Ne.symm h02]
        have d1 : decide (r.stress_level = s ∧ r.work_location = w1) = false := by
          simp [hw, Ne.symm h12]
        have d2 : decide (r.stress_level = s ∧ r.work_location = w2) = true := by
          simp [hs, hw]
        have dq : decide (r.stress_level = s) = true := by simp [hs]
        rw [d0, d1, d2, dq]
        simp only [if_true, Bool.false_eq_true, ite_true, ite_false]
        omega
    · have d0 : decide (r.stress_level = s ∧ r.work_location = w0) = false := by simp [hs]
      have d1 : decide (r.stress_level = s ∧ r.work_location = w1) = false := by simp [hs]
      have d2 : decide (r.stress_level = s ∧ r.work_location = w2) = false := by simp [hs]
      have dq : decide (r.stress_level = s) = false := by simp [hs]
      rw [d0, d1, d2, dq]
      simp only [Bool.false_eq_true, ite_false]
      omega

theorem sum_round2_bound (p0 p1 p2 : ℚ) (hsum : p0 + p1 + p2 = 100) :
    |100 - (round2 p0 + round2 p1 + round2 p2)| ≤ 1 / 100 := by
  have h0 := abs_sub_round (100 * p0)
  have h1 := abs_sub_round (100 * p1)
  have h2 := abs_sub_round (100 * p2)
  have hq : |((round (100 * p0) + round (100 * p1) + round (100 * p2) - 10000 : ℤ) : ℚ)| ≤
      3 / 2 := by
    have hrw : ((round (100 * p0) + round (100 * p1) + round (100 * p2) - 10000 : ℤ) : ℚ) =
        -((100 * p0 - (round (100 * p0) : ℤ)) + (100 * p1 - (round (100 * p1) : ℤ)) +
          (100 * p2 - (round (100 * p2) : ℤ))) := by
      push_cast
      have : 100 * p0 + 100 * p1 + 100 * p2 = 10000 := by linarith
      linarith
    rw [hrw, abs_neg]
    calc |(100 * p0 - (round (100 * p0) : ℤ)) + (100 * p1 - (round (100 * p1) : ℤ)) +
        (100 * p2 - (round (100 * p2) : ℤ))| ≤
        |(100 * p0 - (round (100 * p0) : ℤ)) + (100 * p1 - (round (100 * p1) : ℤ))| +
          |100 * p2 - (round (100 * p2) : ℤ)| := abs_add _ _
      _ ≤ |100 * p0 - (round (100 * p0) : ℤ)| + |100 * p1 - (round (100 * p1) : ℤ)| +
          |100 * p2 - (round (100 * p2) : ℤ)| := by
            have := abs_add (100 * p0 - (round (100 * p0) : ℤ))
              (100 * p1 - (round (100 * p1) : ℤ))
            linarith
      _ ≤ 3 / 2 := by linarith
  have hZ : |round (100 * p0) + round (100 * p1) + round (100 * p2) - 10000| ≤ 1 := by
    rw [← Int.cast_abs] at hq
    have hlt : ((|round (100 * p0) + round (100 * p1) + round (100 * p2) - 10000| : ℤ) : ℚ) <
        2 := lt_of_le_of_lt hq (by norm_num)
    have : |round (100 * p0) + round (100 * p1) + round (100 * p2) - 10000| < 2 := by
      exact_mod_cast hlt
    omega
  have hrw2 : 100 - (round2 p0 + round2 p1 + round2 p2) =
      -(((round (100 * p0) + round (100 * p1) + round (100 * p2) - 10000 : ℤ) : ℚ)) / 100 := by
    rw [round2, round2, round2]
    push_cast
    ring
  rw [hrw2, abs_div, abs_neg, abs_of_pos (by norm_num : (0 : ℚ) < 100)]
  rw [div_le_div_iff_of_pos_right (by norm_num : (0 : ℚ) < 100)]
  rw [← Int.cast_abs]
  exact_mod_cast hZ

/-- C7 amended: whenever `stress_worktype_rel` returns a table and every
work-type value occurring in the cleaned table occurs under every one of the
three stress levels, each returned row has Total exactly 100 and the three
rounded percentage cells are all defined with Total within 0.01 of their
sum. -/
theorem spec_C7_amended (df : MHFrame) (out : List StressRow)
    (hok : stress_worktype_rel df = .ok out)
    (hcombo : ∀ s ∈ (["Low", "Medium", "High"] : List String),
      ∀ w ∈ sortedWorkTypes df.rows, countStressWT df.rows s w ≠ 0) :
    ∀ row ∈ out, row.total = 100 ∧
      ∃ r h o : ℚ, row.remote = some r ∧ row.hybrid = some h ∧ row.onsite = some o ∧
        |row.total - (r + h + o)| ≤ 1 / 100 := by
  unfold stress_worktype_rel at hok
  split at hok
  case isFalse => simp at hok
  case isTrue hlen =>
    split at hok
    case isFalse => simp at hok
    case isTrue hstress =>
      simp only [Except.ok.injEq] at hok
      subst hok
      obtain ⟨w0, w1, w2, hw⟩ := List.length_eq_three.mp hlen
      have hnd := nodup_sortedWorkTypes df.rows
      rw [hw] at hnd
      simp only [List.nodup_cons, List.mem_cons, List.mem_singleton,
        List.not_mem_nil, or_false, not_or, List.nodup_nil, and_true,
        not_false_iff] at hnd
      obtain ⟨⟨h01, h02⟩, h12⟩ := hnd
      have hcov : ∀ r ∈ df.rows, r.work_location = w0 ∨ r.work_location = w1 ∨
          r.work_location = w2 := by
        intro r hr
        have hmem := mem_sortedWorkTypes hr
        rw [hw] at hmem
        simpa using hmem
      intro row hrow
      obtain ⟨s, hs, heq⟩ := List.mem_map.mp hrow
      have hsmem : s ∈ df.rows.map (·.stress_level) := by
        have hs' := hs
        simp only [List.mem_cons, List.not_mem_nil, or_false] at hs'
        rcases hs' with h | h | h
        · rw [h]; exact hstress.1
        · rw [h]; exact hstress.2.1
        · rw [h]; exact hstress.2.2
      obtain ⟨r0, hr0, hr0s⟩ := List.mem_map.mp hsmem
      have hn : 0 < countStress df.rows s :=
        List.countP_pos_iff.mpr ⟨r0, hr0, by simp [hr0s]⟩
      have hnne : ((countStress df.rows s : ℚ)) ≠ 0 :=
        Nat.cast_ne_zero.mpr hn.ne'
      have hc0 : countStressWT df.rows s w0 ≠ 0 :=
        hcombo s hs w0 (by rw [hw]; exact List.mem_cons_self _ _)
      have hc1 : countStressWT df.rows s w1 ≠ 0 :=
        hcombo s hs w1 (by rw [hw]; simp)
      have hc2 : countStressWT df.rows s w2 ≠ 0 :=
        hcombo s hs w2 (by rw [hw]; simp)
      have hpart := countP_partition3 s w0 w1 w2 h01 h02 h12 df.rows hcov
      have hp0 : pctCell df.rows s w0 = some (100 * (countStressWT df.rows s w0 : ℚ) /
          (countStress df.rows s : ℚ)) := by
        simp only [pctCell]
        rw [if_neg hc0]
      have hp1 : pctCell df.rows s w1 = some (100 * (countStressWT df.rows s w1 : ℚ) /
          (countStress df.rows s : ℚ)) := by
        simp only [pctCell]
        rw [if_neg hc1]
      have hp2 : pctCell df.rows s w2 = some (100 * (countStressWT df.rows s w2 : ℚ) /
          (countStress df.rows s : ℚ)) := by
        simp only [pctCell]
        rw [if_neg hc2]
      have hremote : row.remote = some (round2 (100 * (countStressWT df.rows s w0 : ℚ) /
          (countStress df.rows s : ℚ))) := by
        rw [← heq]
        show (cellAt df.rows (sortedWorkTypes df.rows) s 0).map round2 = _
        rw [hw]
        show (pctCell df.rows s w0).map round2 = _
        rw [hp0]
        rfl
      have hhybrid : row.hybrid = some (round2 (100 * (countStressWT df.rows s w1 : ℚ) /
          (countStress df.rows s : ℚ))) := by
        rw [← heq]
        show (cellAt df.rows (sortedWorkTypes df.rows) s 1).map round2 = _
        rw [hw]
        show (pctCell df.rows s w1).map round2 = _
        rw [hp1]
        rfl
      have honsite : row.onsite = some (round2 (100 * (countStressWT df.rows s w2 : ℚ) /
          (countStress df.rows s : ℚ))) := by
        rw [← heq]
        show (cellAt df.rows (sortedWorkTypes df.rows) s 2).map round2 = _
        rw [hw]
        show (pctCell df.rows s w2).map round2 = _
        rw [hp2]
        rfl
      have hpsum : 100 * (countStressWT df.rows s w0 : ℚ) / (countStress df.rows s : ℚ) +
          100 * (countStressWT df.rows s w1 : ℚ) / (countStress df.rows s : ℚ) +
          100 * (countStressWT df.rows s w2 : ℚ) / (countStress df.rows s : ℚ) = 100 := by
        have hcast : (countStressWT df.rows s w0 : ℚ) + (countStressWT df.rows s w1 : ℚ) +
            (countStressWT df.rows s w2 : ℚ) = (countStress df.rows s : ℚ) := by
          exact_mod_cast congrArg (Nat.cast : ℕ → ℚ) hpart
        field_simp
        linarith
      have htot : row.total = 100 := by
        rw [← heq]
        show ((sortedWorkTypes df.rows).map
          (fun w => (pctCell df.rows s w).getD 0)).sum = 100
        rw [hw]
        simp only [List.map_cons, List.map_nil, List.sum_cons, List.sum_nil]
        rw [hp0, hp1, hp2]
        simp only [Option.getD_some]
        linarith [hpsum]
      refine ⟨htot, _, _, _, hremote, hhybrid, honsite, ?_⟩
      rw [htot]
      exact sum_round2_bound _ _ _ hpsum

theorem round2_int (n : ℤ) : round2 ((n : ℚ)) = (n : ℚ) := by
  rw [round2, show (100 : ℚ) * (n : ℚ) = ((100 * n : ℤ) : ℚ) by push_cast; ring,
    round_intCast]
  push_cast
  ring

theorem round2_fifty : round2 50 = 50 := by
  have h := round2_int 50
  norm_num at h
  exact h

theorem round2_twentyfive : round2 25 = 25 := by
  have h := round2_int 25
  norm_num at h
  exact h

theorem round2_hundred : round2 100 = 100 := by
  have h := round2_int 100
  norm_num at h
  exact h

/-- A concrete cleaned mental-health table: under stress Low there are two
Hybrid rows, one Remote row and one Onsite row; stress Medium has one Remote
row, stress High one Onsite row. -/
def mh6Rows : List MHRow :=
  [{ work_location := "Hybrid", stress_level := "Low" },
   { work_location := "Hybrid", stress_level := "Low" },
   { work_location := "Remote", stress_level := "Low" },
   { work_location := "Onsite", stress_level := "Low" },
   { work_location := "Remote", stress_level := "Medium" },
   { work_location := "Onsite", stress_level := "High" }]

def mh6 : MHFrame := { colNames := [], rows := mh6Rows }

/-- C6: evaluated on the concrete table, the column labelled Remote of the
Low-stress row holds 50, the Hybrid share, while the true Remote share of
the Low-stress rows is 25: the positional relabelling of line 539 is applied
to the alphabetically sorted unstacked columns [Hybrid, Onsite, Remote], so
each label names another work type's percentages. -/
theorem spec_C6_bug :
    sortedWorkTypes mh6.rows = ["Hybrid", "Onsite", "Remote"] ∧
    pctCell mh6.rows "Low" "Remote" = some 25 ∧
    pctCell mh6.rows "Low" "Hybrid" = some 50 ∧
    stress_worktype_rel mh6 = .ok
      [{ stress_level := "Low", remote := some 50, hybrid := some 25, onsite := some 25,
         total := 100 },
       { stress_level := "Medium", remote := none, hybrid := none, onsite := some 100,
         total := 100 },
       { stress_level := "High", remote := none, hybrid := some 100, onsite := none,
         total := 100 }] := by
  have hwts : sortedWorkTypes mh6.rows = ["Hybrid", "Onsite", "Remote"] := by decide
  have cL : countStress mh6.rows "Low" = 4 := by decide
  have cM : countStress mh6.rows "Medium" = 1 := by decide
  have cH : countStress mh6.rows "High" = 1 := by decide
  have cLH : countStressWT mh6.rows "Low" "Hybrid" = 2 := by decide
  have cLO : countStressWT mh6.rows "Low" "Onsite" = 1 := by decide
  have cLR : countStressWT mh6.rows "Low" "Remote" = 1 := by decide
  have cMH : countStressWT mh6.rows "Medium" "Hybrid" = 0 := by decide
  have cMO : countStressWT mh6.rows "Medium" "Onsite" = 0 := by decide
  have cMR : countStressWT mh6.rows "Medium" "Remote" = 1 := by decide
  have cHH : countStressWT mh6.rows "High" "Hybrid" = 0 := by decide
  have cHO : countStressWT mh6.rows "High" "Onsite" = 1 := by decide
  have cHR : countStressWT mh6.rows "High" "Remote" = 0 := by decide
  have pLH : pctCell mh6.rows "Low" "Hybrid" = some 50 := by
    simp only [pctCell, cLH, cL]
    norm_num
  have pLO : pctCell mh6.rows "Low" "Onsite" = some 25 := by
    simp only [pctCell, cLO, cL]
    norm_num
  have pLR : pctCell mh6.rows "Low" "Remote" = some 25 := by
    simp only [pctCell, cLR, cL]
    norm_num
  have pMH : pctCell mh6.rows "Medium" "Hybrid" = none := by
    simp only [pctCell, cMH]
    norm_num
  have pMO : pctCell mh6.rows "Medium" "Onsite" = none := by
    simp only [pctCell, cMO]
    norm_num
  have pMR : pctCell mh6.rows "Medium" "Remote" = some 100 := by
    simp only [pctCell, cMR, cM]
    norm_num
  have pHH : pctCell mh6.rows "High" "Hybrid" = none := by
    simp only [pctCell, cHH]
    norm_num
  have pHO : pctCell mh6.rows "High" "Onsite" = some 100 := by
    simp only [pctCell, cHO, cH]
    norm_num
  have pHR : pctCell mh6.rows "High" "Remote" = none := by
    simp only [pctCell, cHR]
    norm_num
  have aL0 : (cellAt mh6.rows ["Hybrid", "Onsite", "Remote"] "Low" 0).map round2 =
      some 50 := by
    show (pctCell mh6.rows "Low" "Hybrid").map round2 = some 50
    rw [pLH]
    show some (round2 50) = some 50
    rw [round2_fifty]
  have aL1 : (cellAt mh6.rows ["Hybrid", "Onsite", "Remote"] "Low" 1).map round2 =
      some 25 := by
    show (pctCell mh6.rows "Low" "Onsite").map round2 = some 25
    rw [pLO]
    show some (round2 25) = some 25
    rw [round2_twentyfive]
  have aL2 : (cellAt mh6.rows ["Hybrid", "Onsite", "Remote"] "Low" 2).map round2 =
      some 25 := by
    show (pctCell mh6.rows "Low" "Remote").map round2 = some 25
    rw [pLR]
    show some (round2 25) = some 25
    rw [round2_twentyfive]
  have tL : ((["Hybrid", "Onsite", "Remote"] : List String).map
      (fun w => (pctCell mh6.rows "Low" w).getD 0)).sum = 100 := by
    show (pctCell mh6.rows "Low" "Hybrid").getD 0 +
      ((pctCell mh6.rows "Low" "Onsite").getD 0 +
        ((pctCell mh6.rows "Low" "Remote").getD 0 + 0)) = 100
    rw [pLH, pLO, pLR]
    show (50 : ℚ) + (25 + (25 + 0)) = 100
    norm_num
  have aM0 : (cellAt mh6.rows ["Hybrid", "Onsite", "Remote"] "Medium" 0).map round2 =
      none := by
    show (pctCell mh6.rows "Medium" "Hybrid").map round2 = none
    rw [pMH]
    rfl
  have aM1 : (cellAt mh6.rows ["Hybrid", "Onsite", "Remote"] "Medium" 1).map round2 =
      none := by
    show (pctCell mh6.rows "Medium" "Onsite").map round2 = none
    rw [pMO]
    rfl
  have aM2 : (cellAt mh6.rows ["Hybrid", "Onsite", "Remote"] "Medium" 2).map round2 =
      some 100 := by
    show (pctCell mh6.rows "Medium" "Remote").map round2 = some 100
    rw [pMR]
    show some (round2 100) = some 100
    rw [round2_hundred]
  have tM : ((["Hybrid", "Onsite", "Remote"] : List String).map
      (fun w => (pctCell mh6.rows "Medium" w).getD 0)).sum = 100 := by
    show (pctCell mh6.rows "Medium" "Hybrid").getD 0 +
      ((pctCell mh6.rows "Medium" "Onsite").getD 0 +
        ((pctCell mh6.rows "Medium" "Remote").getD 0 + 0)) = 100
    rw [pMH, pMO, pMR]
    show (0 : ℚ) + (0 + (100 + 0)) = 100
    norm_num
  have aH0 : (cellAt mh6.rows ["Hybrid", "Onsite", "Remote"] "High" 0).map round2 =
      none := by
    show (pctCell mh6.rows "High" "Hybrid").map round2 = none
    rw [pHH]
    rfl
  have aH1 : (cellAt mh6.rows ["Hybrid", "Onsite", "Remote"] "High" 1).map round2 =
      some 100 := by
    show (pctCell mh6.rows "High" "Onsite").map round2 = some 100
    rw [pHO]
    show some (round2 100) = some 100
    rw [round2_hundred]
  have aH2 : (cellAt mh6.rows ["Hybrid", "Onsite", "Remote"] "High" 2).map round2 =
      none := by
    show (pctCell mh6.rows "High" "Remote").map round2 = none
    rw [pHR]
    rfl
  have tH : ((["Hybrid", "Onsite", "Remote"] : List String).map
      (fun w => (pctCell mh6.rows "High" w).getD 0)).sum = 100 := by
    show (pctCell mh6.rows "High" "Hybrid").getD 0 +
      ((pctCell mh6.rows "High" "Onsite").getD 0 +
        ((pctCell mh6.rows "High" "Remote").getD 0 + 0)) = 100
    rw [pHH, pHO, pHR]
    show (0 : ℚ) + (100 + (0 + 0)) = 100
    norm_num
  refine ⟨hwts, pLR, pLH, ?_⟩
  unfold stress_worktype_rel
  rw [hwts]
  rw [if_pos (by norm_num), if_pos (by exact ⟨by decide, by decide, by decide⟩)]
  simp only [List.map_cons, List.map_nil]
  rw [show mkStressRow mh6.rows ["Hybrid", "Onsite", "Remote"] "Low" =
      { stress_level := "Low", remote := some 50, hybrid := some 25, onsite := some 25,
        total := 100 } by unfold mkStressRow; rw [aL0, aL1, aL2, tL]]
  rw [show mkStressRow mh6.rows ["Hybrid", "Onsite", "Remote"] "Medium" =
      { stress_level := "Medium", remote := none, hybrid := none, onsite := some 100,
        total := 100 } by unfold mkStressRow; rw [aM0, aM1, aM2, tM]]
  rw [show mkStressRow mh6.rows ["Hybrid", "Onsite", "Remote"] "High" =
      { stress_level := "High", remote := none, hybrid := some 100, onsite := none,
        total := 100 } by unfold mkStressRow; rw [aH0, aH1, aH2, tH]]

theorem round2_third : round2 (100 / 3) = 3333 / 100 := by
  rw [round2, round_eq]
  rw [show (100 : ℚ) * (100 / 3) + 1 / 2 = 20003 / 6 by norm_num]
  have h1 : (3333 : ℤ) ≤ ⌊(20003 / 6 : ℚ)⌋ := Int.le_floor.mpr (by norm_num)
  have h2 : ⌊(20003 / 6 : ℚ)⌋ < 3334 := Int.floor_lt.mpr (by norm_num)
  have hf : ⌊(20003 / 6 : ℚ)⌋ = 3333 := by omega
  rw [hf]
  norm_num

/-- A concrete cleaned mental-health table with all three stress levels but
a work-type value missing within the Medium and High groups. -/
def mh7Rows : List MHRow :=
  [{ work_location := "Remote", stress_level := "Low" },
   { work_location := "Hybrid", stress_level := "Low" },
   { work_location := "Onsite", stress_level := "Low" },
   { work_location := "Remote", stress_level := "Medium" },
   { work_location := "Remote", stress_level := "High" }]

def mh7 : MHFrame := { colNames := [], rows := mh7Rows }

/-- The Medium-stress output row of the table above: two of its percentage
cells are the NaN produced by `unstack` for a missing combination. -/
def mh7MedRow : StressRow :=
  { stress_level := "Medium", remote := none, hybrid := none, onsite := some 100,
    total := 100 }

/-- C7 counterexample: on a table with all three stress levels present the
function returns a row whose labelled percentage cells are partly NaN, so
Total = Remote + Hybrid + Onsite fails on that row even though Total is
exactly 100. -/
theorem spec_C7_counterexample :
    ("Low" ∈ mh7.rows.map (·.stress_level) ∧ "Medium" ∈ mh7.rows.map (·.stress_level) ∧
      "High" ∈ mh7.rows.map (·.stress_level)) ∧
    stress_worktype_rel mh7 = .ok
      [{ stress_level := "Low", remote := some (3333 / 100), hybrid := some (3333 / 100),
         onsite := some (3333 / 100), total := 100 },
       mh7MedRow,
       { stress_level := "High", remote := none, hybrid := none, onsite := some 100,
         total := 100 }] ∧
    mh7MedRow.remote = none ∧ mh7MedRow.total = 100 ∧
    ¬ ∃ r h o : ℚ, mh7MedRow.remote = some r ∧ mh7MedRow.hybrid = some h ∧
      mh7MedRow.onsite = some o ∧ |mh7MedRow.total - (r + h + o)| ≤ 1 / 100 := by
  have hwts : sortedWorkTypes mh7.rows = ["Hybrid", "Onsite", "Remote"] := by decide
  have cL : countStress mh7.rows "Low" = 3 := by decide
  have cM : countStress mh7.rows "Medium" = 1 := by decide
  have cH : countStress mh7.rows "High" = 1 := by decide
  have cLH : countStressWT mh7.rows "Low" "Hybrid" = 1 := by decide
  have cLO : countStressWT mh7.rows "Low" "Onsite" = 1 := by decide
  have cLR : countStressWT mh7.rows "Low" "Remote" = 1 := by decide
  have cMH : countStressWT mh7.rows "Medium" "Hybrid" = 0 := by decide
  have cMO : countStressWT mh7.rows "Medium" "Onsite" = 0 := by decide
  have cMR : countStressWT mh7.rows "Medium" "Remote" = 1 := by decide
  have cHH : countStressWT mh7.rows "High" "Hybrid" = 0 := by decide
  have cHO : countStressWT mh7.rows "High" "Onsite" = 0 := by decide
  have cHR : countStressWT mh7.rows "High" "Remote" = 1 := by decide
  have pLH : pctCell mh7.rows "Low" "Hybrid" = some (100 / 3) := by
    simp only [pctCell, cLH, cL]
    norm_num
  have pLO : pctCell mh7.rows "Low" "Onsite" = some (100 / 3) := by
    simp only [pctCell, cLO, cL]
    norm_num
  have pLR : pctCell mh7.rows "Low" "Remote" = some (100 / 3) := by
    simp only [pctCell, cLR, cL]
    norm_num
  have pMH : pctCell mh7.rows "Medium" "Hybrid" = none := by
    simp only [pctCell, cMH]
    norm_num
  have pMO : pctCell mh7.rows "Medium" "Onsite" = none := by
    simp only [pctCell, cMO]
    norm_num
  have pMR : pctCell mh7.rows "Medium" "Remote" = some 100 := by
    simp only [pctCell, cMR, cM]
    norm_num
  have pHH : pctCell mh7.rows "High" "Hybrid" = none := by
    simp only [pctCell, cHH]
    norm_num
  have pHO : pctCell mh7.rows "High" "Onsite" = none := by
    simp only [pctCell, cHO]
    norm_num
  have pHR : pctCell mh7.rows "High" "Remote" = some 100 := by
    simp only [pctCell, cHR, cH]
    norm_num
  have aL0 : (cellAt mh7.rows ["Hybrid", "Onsite", "Remote"] "Low" 0).map round2 =
      some (3333 / 100) := by
    show (pctCell mh7.rows "Low" "Hybrid").map round2 = some (3333 / 100)
    rw [pLH]
    show some (round2 (100 / 3)) = some (3333 / 100)
    rw [round2_third]
  have aL1 : (cellAt mh7.rows ["Hybrid", "Onsite", "Remote"] "Low" 1).map round2 =
      some (3333 / 100) := by
    show (pctCell mh7.rows "Low" "Onsite").map round2 = some (3333 / 100)
    rw [pLO]
    show some (round2 (100 / 3)) = some (3333 / 100)
    rw [round2_third]
  have aL2 : (cellAt mh7.rows ["Hybrid", "Onsite", "Remote"] "Low" 2).map round2 =
      some (3333 / 100) := by
    show (pctCell mh7.rows "Low" "Remote").map round2 = some (3333 / 100)
    rw [pLR]
    show some (round2 (100 / 3)) = some (3333 / 100)
    rw [round2_third]
  have tL : ((["Hybrid", "Onsite", "Remote"] : List String).map
      (fun w => (pctCell mh7.rows "Low" w).getD 0)).sum = 100 := by
    show (pctCell mh7.rows "Low" "Hybrid").getD 0 +
      ((pctCell mh7.rows "Low" "Onsite").getD 0 +
        ((pctCell mh7.rows "Low" "Remote").getD 0 + 0)) = 100
    rw [pLH, pLO, pLR]
    show (100 / 3 : ℚ) + (100 / 3 + (100 / 3 + 0)) = 100
    norm_num
  have aM0 : (cellAt mh7.rows ["Hybrid", "Onsite", "Remote"] "Medium" 0).map round2 =
      none := by
    show (pctCell mh7.rows "Medium" "Hybrid").map round2 = none
    rw [pMH]
    rfl
  have aM1 : (cellAt mh7.rows ["Hybrid", "Onsite", "Remote"] "Medium" 1).map round2 =
      none := by
    show (pctCell mh7.rows "Medium" "Onsite").map round2 = none
    rw [pMO]
    rfl
  have aM2 : (cellAt mh7.rows ["Hybrid", "Onsite", "Remote"] "Medium" 2).map round2 =
      some 100 := by
    show (pctCell mh7.rows "Medium" "Remote").map round2 = some 100
    rw [pMR]
    show some (round2 100) = some 100
    rw [round2_hundred]
  have tM : ((["Hybrid", "Onsite", "Remote"] : List String).map
      (fun w => (pctCell mh7.rows "Medium" w).getD 0)).sum = 100 := by
    show (pctCell mh7.rows "Medium" "Hybrid").getD 0 +
      ((pctCell mh7.rows "Medium" "Onsite").getD 0 +
        ((pctCell mh7.rows "Medium" "Remote").getD 0 + 0)) = 100
    rw [pMH, pMO, pMR]
    show (0 : ℚ) + (0 + (100 + 0)) = 100
    norm_num
  have aH0 : (cellAt mh7.rows ["Hybrid", "Onsite", "Remote"] "High" 0).map round2 =
      none := by
    show (pctCell mh7.rows "High" "Hybrid").map round2 = none
    rw [pHH]
    rfl
  have aH1 : (cellAt mh7.rows ["Hybrid", "Onsite", "Remote"] "High" 1).map round2 =
      none := by
    show (pctCell mh7.rows "High" "Onsite").map round2 = none
    rw [pHO]
    rfl
  have aH2 : (cellAt mh7.rows ["Hybrid", "Onsite", "Remote"] "High" 2).map round2 =
      some 100 := by
    show (pctCell mh7.rows "High" "Remote").map round2 = some 100
    rw [pHR]
    show some (round2 100) = some 100
    rw [round2_hundred]
  have tH : ((["Hybrid", "Onsite", "Remote"] : List String).map
      (fun w => (pctCell mh7.rows "High" w).getD 0)).sum = 100 := by
    show (pctCell mh7.rows "High" "Hybrid").getD 0 +
      ((pctCell mh7.rows "High" "Onsite").getD 0 +
        ((pctCell mh7.rows "High" "Remote").getD 0 + 0)) = 100
    rw [pHH, pHO, pHR]
    show (0 : ℚ) + (0 + (100 + 0)) = 100
    norm_num
  refine ⟨⟨by decide, by decide, by decide⟩, ?_, rfl, rfl, ?_⟩
  · unfold stress_worktype_rel
    rw [hwts]
    rw [if_pos (by norm_num), if_pos (by exact ⟨by decide, by decide, by decide⟩)]
    simp only [List.map_cons, List.map_nil]
    rw [show mkStressRow mh7.rows ["Hybrid", "Onsite", "Remote"] "Low" =
        { stress_level := "Low", remote := some (3333 / 100), hybrid := some (3333 / 100),
          onsite := some (3333 / 100), total := 100 } by
      unfold mkStressRow; rw [aL0, aL1, aL2, tL]]
    rw [show mkStressRow mh7.rows ["Hybrid", "Onsite", "Remote"] "Medium" = mh7MedRow by
      unfold mkStressRow mh7MedRow; rw [aM0, aM1, aM2, tM]]
    rw [show mkStressRow mh7.rows ["Hybrid", "Onsite", "Remote"] "High" =
        { stress_level := "High", remote := none, hybrid := none, onsite := some 100,
          total := 100 } by unfold mkStressRow; rw [aH0, aH1, aH2, tH]]
  · rintro ⟨r, h, o, hr, -, -, -⟩
    simp only [mh7MedRow] at hr
    cases hr

/-- A concrete cleaned mental-health table in which every work type occurs
under every stress level. -/
def mhW7Rows : List MHRow :=
  [{ work_location := "Remote", stress_level := "Low" },
   { work_location := "Hybrid", stress_level := "Low" },
   { work_location := "Onsite", stress_level := "Low" },
   { work_location := "Remote", stress_level := "Medium" },
   { work_location := "Hybrid", stress_level := "Medium" },
   { work_location := "Onsite", stress_level := "Medium" },
   { work_location := "Remote", stress_level := "High" },
   { work_location := "Hybrid", stress_level := "High" },
   { work_location := "Onsite", stress_level := "High" }]

def mhW7 : MHFrame := { colNames := [], rows := mhW7Rows }

theorem spec_C7_witness :
    (mkStressRow mhW7.rows (sortedWorkTypes mhW7.rows) "Low").total = 100 ∧
    ∃ r h o : ℚ,
      (mkStressRow mhW7.rows (sortedWorkTypes mhW7.rows) "Low").remote = some r ∧
      (mkStressRow mhW7.rows (sortedWorkTypes mhW7.rows) "Low").hybrid = some h ∧
      (mkStressRow mhW7.rows (sortedWorkTypes mhW7.rows) "Low").onsite = some o ∧
      |(mkStressRow mhW7.rows (sortedWorkTypes mhW7.rows) "Low").total - (r + h + o)| ≤
        1 / 100 := by
  have hok : stress_worktype_rel mhW7 = .ok
      (["Low", "Medium", "High"].map (mkStressRow mhW7.rows (sortedWorkTypes mhW7.rows))) := by
    unfold stress_worktype_rel
    rw [if_pos (by decide), if_pos (by exact ⟨by decide, by decide, by decide⟩)]
  exact spec_C7_amended mhW7 _ hok (by decide) _
    (List.mem_map.mpr ⟨"Low", by decide, rfl⟩)

end FirstProject
